import Mathlib

/-!
Shallow embedding of the BitLogic SDK core (packages/sdk/src/conditions.ts,
proof.ts, escrow.ts, bridge.ts) and proofs of the frozen claims about it.

Modelling conventions, used consistently below:
* JS numbers that the source only compares and scales are modelled as Int /
  Nat / Rat as appropriate; timestamps (Date.now, in milliseconds) are Nat.
* Sources of nondeterminism (Date.now, Math.random) are passed in explicitly
  as environment arguments.
* JS string falsiness (the empty string is falsy) is modelled by explicit
  comparisons with "".
* Base64/JSON serialization done by opaque-to-the-repo library calls
  (Buffer, JSON.stringify/parse) is abstracted: proof payloads are a tagged
  type distinguishing well-formed encodings from undecodable strings, and
  auxiliary fingerprint strings use a simple concatenation printer.  No claim
  inspects the byte-level content of these strings.
* The in-memory Map stores are association lists; Map.get/set/delete become
  lookup/insert/erase on the key.  Iteration order is never observed.
-/

/-- Lexicographic lowercase of a string, character by character
(model of JS String.prototype.toLowerCase on the ASCII tags used here). -/
def strLower (s : String) : String :=
  String.mk (s.data.map Char.toLower)

/-- Model of the JS idiom `x || d` on an optional string:
the default is taken when the value is absent or empty (falsy). -/
def jsStrOr (o : Option String) (d : String) : String :=
  match o with
  | none => d
  | some s => if s = "" then d else s

/-- Model of the JS idiom `x || d` on an optional number:
the default is taken when the value is absent or 0 (falsy). -/
def jsIntOr (o : Option Int) (d : Int) : Int :=
  match o with
  | none => d
  | some n => if n = 0 then d else n

/-- Lookup in an association-list store (model of Map.prototype.get). -/
def registryLookup {α : Type} (l : List (String × α)) (k : String) : Option α :=
  (l.find? (fun p => p.1 == k)).map (·.2)

/-- Insert-or-replace in an association-list store (model of
Map.prototype.set; the store's iteration order is never observed). -/
def registryInsert {α : Type} (l : List (String × α)) (k : String) (v : α) :
    List (String × α) :=
  (k, v) :: l.filter (fun p => p.1 != k)

/-- Deletion from an association-list store (model of Map.prototype.delete). -/
def registryErase {α : Type} (l : List (String × α)) (k : String) :
    List (String × α) :=
  l.filter (fun p => p.1 != k)

theorem registryLookup_filter_ne {α : Type} (l : List (String × α)) (k k' : String)
    (h : k' ≠ k) :
    registryLookup (l.filter (fun p => p.1 != k)) k' = registryLookup l k' := by
  induction l with
  | nil => rfl
  | cons hd tl ih =>
    rw [List.filter_cons]
    by_cases hk : hd.1 = k
    · rw [if_neg (by simp [hk])]
      rw [ih]
      unfold registryLookup
      rw [List.find?_cons_of_neg _ (by simp [hk]; exact fun hc => h hc.symm)]
    · rw [if_pos (by simp [hk])]
      unfold registryLookup
      by_cases hk' : hd.1 = k'
      · rw [List.find?_cons_of_pos _ (by simp [hk']),
          List.find?_cons_of_pos _ (by simp [hk'])]
      · rw [List.find?_cons_of_neg _ (by simp [hk']),
          List.find?_cons_of_neg _ (by simp [hk'])]
        exact ih

theorem registryLookup_insert_same {α : Type} (l : List (String × α)) (k : String)
    (v : α) : registryLookup (registryInsert l k v) k = some v := by
  unfold registryInsert registryLookup
  rw [List.find?_cons_of_pos _ (by simp)]
  rfl

theorem registryLookup_insert_other {α : Type} (l : List (String × α))
    (k k' : String) (v : α) (h : k' ≠ k) :
    registryLookup (registryInsert l k v) k' = registryLookup l k' := by
  unfold registryInsert registryLookup
  rw [List.find?_cons_of_neg _ (by simp; exact fun hc => h hc.symm)]
  exact registryLookup_filter_ne l k k' h

theorem registryLookup_erase_same {α : Type} (l : List (String × α)) (k : String) :
    registryLookup (registryErase l k) k = none := by
  induction l with
  | nil => rfl
  | cons hd tl ih =>
    unfold registryErase
    rw [List.filter_cons]
    by_cases hk : hd.1 = k
    · rw [if_neg (by simp [hk])]
      exact ih
    · rw [if_pos (by simp [hk])]
      unfold registryLookup
      rw [List.find?_cons_of_neg _ (by simp [hk])]
      exact ih

/-! ## Conditions module (packages/sdk/src/conditions.ts) -/

/-- The Condition tagged union.  Each variant carries the fields of the
corresponding TS interface; optional fields are Option.  The oracle `source`
and hash-lock `hashAlgorithm` unions of string literals are modelled as
String. -/
inductive Condition
  | timeLock (unlockAfter : String) (minDelay : Option String)
  | oracle (source : String) (condition : String) (feedId : Option String)
      (threshold : Option Int)
  | multiSig (required : Int) (signers : List String)
      (currentSignatures : Option (List String))
  | hashLock (hashAlgorithm : String) (hash : String) (preimage : Option String)
  | governanceVote (proposalId : String) (threshold : String)
  | custom (circuitId : String) (inputs : List (String × String))
deriving DecidableEq, Repr

/-- The `type` tag string of a condition. -/
def Condition.type : Condition → String
  | .timeLock _ _ => "TIME_LOCK"
  | .oracle _ _ _ _ => "ORACLE"
  | .multiSig _ _ _ => "MULTI_SIG"
  | .hashLock _ _ _ => "HASH_LOCK"
  | .governanceVote _ _ => "GOVERNANCE_VOTE"
  | .custom _ _ => "CUSTOM"

/-- conditions.ts validateCondition: structural well-formedness per variant.
`!!x` on a string field is modelled as the field being nonempty. -/
def validateCondition : Condition → Bool
  | .timeLock unlockAfter _ => unlockAfter != ""
  | .oracle source condition _ _ => source != "" && condition != ""
  | .multiSig required signers _ =>
      required > 0 && (signers.length : Int) ≥ required
  | .hashLock hashAlgorithm hash _ => hash != "" && hashAlgorithm != ""
  | .governanceVote proposalId threshold => proposalId != "" && threshold != ""
  | .custom circuitId _ => circuitId != ""

/-- conditions.ts Conditions.multiSig builder: throws when required exceeds
the number of signers, otherwise returns the MULTI_SIG condition. -/
def Conditions.multiSig (required : Int) (signers : List String) :
    Except String Condition :=
  if required > (signers.length : Int) then
    .error "Required signatures cannot exceed number of signers"
  else
    .ok (.multiSig required signers none)

/-- The CrossChainAction descriptor (conditions.ts).  The TS `chain` field is
a union of four string literals, but bridge.ts getRpcUrl is written over
arbitrary strings with an explicit default branch, so the model keeps it a
String. -/
structure CrossChainAction where
  chain : String
  contract : String
  method : String
  params : List (String × String)
  gasLimit : Option Nat := none
deriving DecidableEq, Repr

/-! ## Proof module (packages/sdk/src/proof.ts) -/

/-- The record serialized into a proof payload by ProofGenerator.createProof:
circuitId, a 32-character hash of the witness, the generation timestamp and a
version string. -/
structure ProofData where
  circuitId : String
  witnessHash : String
  timestamp : Nat
  version : String
deriving DecidableEq, Repr

/-- The `proof` string of an attestation.  The source stores
base64(JSON.stringify(proofData)); performVerification later base64-decodes
and JSON-parses it.  The serialization library is external to the repo, so it
is abstracted as a tagged type: `encoded d` stands for the (nonempty,
injective) encoding of `d`, and `undecodable s` stands for any other string,
on which JSON.parse throws. -/
inductive ProofPayload
  | encoded (d : ProofData)
  | undecodable (s : String)
deriving DecidableEq, Repr

/-- Base64-decode + JSON.parse of a proof payload; none models a thrown
parse error. -/
def decodeProofData : ProofPayload → Option ProofData
  | .encoded d => some d
  | .undecodable _ => none

/-- JS truthiness of the payload string's length check `proof.length > 0`:
an encoded payload is a nonempty base64 string. -/
def ProofPayload.isNonemptyStr : ProofPayload → Bool
  | .encoded _ => true
  | .undecodable s => s.length > 0

/-- The Proof (attestation) record of proof.ts. -/
structure Proof where
  proof : ProofPayload
  publicInputs : List String
  verified : Bool
  timestamp : Nat
  circuitId : String
deriving DecidableEq, Repr

/-- VerificationResult of proof.ts. -/
structure VerificationResult where
  valid : Bool
  error : Option String := none
  gasEstimate : Option Nat := none
deriving DecidableEq, Repr

/-- The loosely typed `Record(string, any)` conditionData is modelled as a
key/value list of strings; Object.keys(...).length === 0 becomes emptiness of
the list. -/
abbrev ConditionData := List (String × String)

/-- ProofRequest of proof.ts. -/
structure ProofRequest where
  escrowId : String
  conditionData : ConditionData
  conditions : Option (List Condition) := none

inductive ProofError
  | invalidRequest (msg : String)
deriving DecidableEq, Repr

/-- ProofGenerator.determineCircuitId: with no conditions the generic
fallback id; otherwise the type tags, sorted (JS default sort = lexicographic
string order, which for these ASCII tags agrees with the String order used
here), joined with an underscore, lowercased and prefixed. -/
def ProofGenerator.determineCircuitId (request : ProofRequest) : String :=
  let conditions := request.conditions.getD []
  if conditions = [] then
    "generic_escrow_v1"
  else
    let types := String.intercalate "_"
      (List.insertionSort (· ≤ ·) (conditions.map Condition.type))
    "circuit_" ++ strLower types

/-- A lookup in conditionData returning the value only when present and
truthy (JS `if (conditionData.key)`). -/
def jsTruthyLookup (d : ConditionData) (k : String) : Option String :=
  match registryLookup d k with
  | none => none
  | some v => if v = "" then none else some v

/-- ProofGenerator.extractPublicInputs: pushes the timestamp, escrowId,
beneficiary and amount values, in that order, when present and truthy. -/
def ProofGenerator.extractPublicInputs (conditionData : ConditionData) :
    List String :=
  (["timestamp", "escrowId", "beneficiary", "amount"]).filterMap
    (jsTruthyLookup conditionData)

/-- A plain key=value printer standing in for JSON.stringify followed by
base64; the byte-level format is irrelevant to every claim. -/
def jsonB64 (entries : List (String × String)) : String :=
  String.intercalate ";" (entries.map (fun p => p.1 ++ "=" ++ p.2))

/-- ProofGenerator.generateWitness: the supplied conditionData augmented with
a fresh timestamp and nonce, serialized.  Date.now and Math.random are the
`now`/`nonce` arguments. -/
def ProofGenerator.generateWitness (conditionData : ConditionData) (now : Nat)
    (nonce : String) : String :=
  jsonB64 (conditionData ++ [("timestamp", toString now), ("nonce", nonce)])

/-- ProofGenerator.createProof: serializes circuitId, the witness hash
(re-encoding of the witness truncated to 32 characters; the base64
re-encoding is abstracted as the identity), a timestamp and the version. -/
def ProofGenerator.createProof (circuitId : String) (witness : String)
    (now : Nat) : ProofPayload :=
  .encoded { circuitId := circuitId, witnessHash := witness.take 32,
             timestamp := now, version := "1.0.0" }

/-- ProofGenerator.generateProof: validates the request, derives the circuit
id, builds witness and payload, and returns the attestation with the
extracted public inputs. -/
def ProofGenerator.generateProof (request : ProofRequest) (now : Nat)
    (nonce : String) : Except ProofError Proof :=
  if request.escrowId = "" then
    .error (.invalidRequest "Escrow ID is required")
  else if request.conditionData = [] then
    .error (.invalidRequest "Condition data is required")
  else
    let circuitId := ProofGenerator.determineCircuitId request
    let witness := ProofGenerator.generateWitness request.conditionData now nonce
    let prf := ProofGenerator.createProof circuitId witness now
    .ok { proof := prf,
          publicInputs := ProofGenerator.extractPublicInputs request.conditionData,
          verified := true, timestamp := now, circuitId := circuitId }

/-- ProofGenerator.performVerification: decodes the payload and compares the
embedded circuit id with the attestation's declared one; a decode failure is
caught and yields false. -/
def ProofGenerator.performVerification (proof : Proof) : Bool :=
  match decodeProofData proof.proof with
  | some proofData => proofData.circuitId == proof.circuitId
  | none => false

/-- ProofGenerator.verifyProof: wraps performVerification in a try/catch; the
body is total here, so the catch branch is unreachable and the result always
carries the fixed gas estimate. -/
def ProofGenerator.verifyProof (proof : Proof) : VerificationResult :=
  { valid := ProofGenerator.performVerification proof,
    error := none, gasEstimate := some 250000 }

/-- Bool-level mismatch test used to state tamper-detection: the payload
either fails to decode or embeds a circuit id different from the declared
one. -/
def circuitMismatch (att : Proof) : Bool :=
  match decodeProofData att.proof with
  | some d => d.circuitId != att.circuitId
  | none => true

/-! ## Bridge module (bridge.ts, src/unnamed/part_004) -/

/-- RelayerConfig: the four per-chain RPC endpoints plus a private key; all
optional, with none modelling an absent key. -/
structure RelayerConfig where
  ethereumRpc : Option String := none
  polygonRpc : Option String := none
  arbitrumRpc : Option String := none
  baseRpc : Option String := none
  privateKey : Option String := none
deriving DecidableEq, Repr

/-- EventMessage stored in the pending-action registry. -/
structure EventMessage where
  sourceChain : String
  targetChain : String
  escrowId : String
  action : CrossChainAction
  proof : String
  timestamp : Nat
deriving DecidableEq, Repr

inductive CCStatus
  | pending
  | confirmed
  | failed
deriving DecidableEq, Repr

/-- CrossChainResult of bridge.ts. -/
structure CrossChainResult where
  txHash : String
  blockNumber : Option Nat := none
  status : CCStatus
  tokenId : Option Nat := none
  error : Option String := none
deriving DecidableEq, Repr

/-- The mutable state of a BridgeClient: its config and the pending-action
registry. -/
structure BridgeState where
  config : RelayerConfig
  pendingActions : List (String × EventMessage)
deriving DecidableEq, Repr

/-- The BridgeClient constructor: spreads the given config over a default
whose ethereumRpc is the Sepolia placeholder.  Because the spread comes
second, a present ethereumRpc key (even an empty string) wins; the default
applies only when the key is absent. -/
def mkBridgeClient (config : RelayerConfig) : BridgeState :=
  { config := { config with
      ethereumRpc := some (config.ethereumRpc.getD "https://sepolia.infura.io/v3/YOUR_KEY") },
    pendingActions := [] }

/-- BridgeClient.getRpcUrl: resolves the four known chains to their
configured endpoint (empty string when unconfigured, via the JS idiom
`x || ''`), and throws on any other chain string. -/
def BridgeClient.getRpcUrl (config : RelayerConfig) (chain : String) :
    Except String String :=
  match chain with
  | "ethereum" => .ok (jsStrOr config.ethereumRpc "")
  | "polygon" => .ok (jsStrOr config.polygonRpc "")
  | "arbitrum" => .ok (jsStrOr config.arbitrumRpc "")
  | "base" => .ok (jsStrOr config.baseRpc "")
  | other => .error ("Unsupported chain: " ++ other)

/-- The Date.now / Math.random draws made during one bridge dispatch. -/
structure BridgeEnv where
  now : Nat
  randHex : String
  randToken : Nat
  randBlock : Nat
deriving Repr

/-- Hexadecimal rendering of a Nat (Number.prototype.toString(16)). -/
def natHex (n : Nat) : String :=
  String.mk (Nat.toDigits 16 n)

/-- BridgeClient.executeOnChain: the demo-simulated dispatch; always
confirms, minting a token id only for the mint methods.  The rpcUrl argument
is accepted and ignored, as in the source. -/
def BridgeClient.executeOnChain (action : CrossChainAction) (rpcUrl : String)
    (env : BridgeEnv) : CrossChainResult :=
  let txHash := "0x" ++ natHex env.now ++ env.randHex
  let tokenId : Option Nat :=
    if action.method == "mintNFT" || action.method == "mint" then
      some env.randToken
    else none
  { txHash := txHash, blockNumber := some (env.randBlock + 18000000),
    status := .confirmed, tokenId := tokenId, error := none }

/-- Result of BridgeClient.triggerAction.  `result` and `client` are what the
source returns and mutates; `message` and `actionId` additionally expose the
event message and registry key it builds internally, for specification
purposes. -/
structure TriggerOutcome where
  result : CrossChainResult
  client : BridgeState
  message : EventMessage
  actionId : String
deriving Repr

/-- BridgeClient.triggerAction: builds the event message, registers it in the
pending registry under escrowId_timestamp, resolves the RPC endpoint and
dispatches.  On success the registry entry is deleted; the catch branch
(reached when getRpcUrl throws) returns a failed result and leaves the
registry entry in place. -/
def BridgeClient.triggerAction (bc : BridgeState) (action : CrossChainAction)
    (escrowId : String) (proof : String) (env : BridgeEnv) : TriggerOutcome :=
  let message : EventMessage :=
    { sourceChain := "bitcoin", targetChain := action.chain,
      escrowId := escrowId, action := action, proof := proof,
      timestamp := env.now }
  let actionId := escrowId ++ "_" ++ toString env.now
  let pending := registryInsert bc.pendingActions actionId message
  match BridgeClient.getRpcUrl bc.config action.chain with
  | .ok rpcUrl =>
      let result := BridgeClient.executeOnChain action rpcUrl env
      { result := result,
        client := { bc with pendingActions := registryErase pending actionId },
        message := message, actionId := actionId }
  | .error msg =>
      { result := { txHash := "", blockNumber := none, status := .failed,
                    tokenId := none, error := some msg },
        client := { bc with pendingActions := pending },
        message := message, actionId := actionId }

/-- BridgeClient.getActionStatus: lookup against the pending registry only;
a registered action reports a synthetic pending result. -/
def BridgeClient.getActionStatus (bc : BridgeState) (actionId : String) :
    Option CrossChainResult :=
  match registryLookup bc.pendingActions actionId with
  | none => none
  | some _ =>
      some { txHash := "pending_" ++ actionId, blockNumber := none,
             status := .pending, tokenId := none, error := none }

/-- bridge.ts triggerCrossChainAction: creates a fresh BridgeClient with the
default (empty) config and triggers, defaulting a falsy escrowId to the
literal "unknown" and a falsy proof to the empty string. -/
def triggerCrossChainAction (action : CrossChainAction)
    (escrowId : Option String) (proof : Option String) (env : BridgeEnv) :
    TriggerOutcome :=
  let bridge := mkBridgeClient {}
  BridgeClient.triggerAction bridge action (jsStrOr escrowId "unknown")
    (jsStrOr proof "") env

/-! ## Escrow module (escrow.ts, src/unnamed/part_005) -/

inductive EscrowStatus
  | pending
  | active
  | released
  | refunded
deriving DecidableEq, Repr

structure UTXO where
  txid : String
  vout : Nat
  value : Int
  scriptPubKey : String
deriving DecidableEq, Repr

/-- EscrowParams: amount is a JS number of BTC, modelled as Rat; timeout is
in seconds. -/
structure EscrowParams where
  amount : Rat
  beneficiary : String
  conditions : List Condition
  timeout : Option Int := none
  crossChainAction : Option CrossChainAction := none
deriving DecidableEq, Repr

structure Escrow where
  id : String
  utxo : UTXO
  scriptHash : String
  status : EscrowStatus
  createdAt : Nat
  params : EscrowParams
deriving DecidableEq, Repr

structure ReleaseParams where
  escrowId : String
  proof : ProofPayload
  publicInputs : List String
deriving DecidableEq, Repr

/-- ReleaseResult: the source's status field is the literal string
"success" on every non-throwing path. -/
structure ReleaseResult where
  btcTxId : String
  ethTxId : Option String := none
  status : String
  nftTokenId : Option Nat := none
deriving DecidableEq, Repr

structure RefundResult where
  txId : String
deriving DecidableEq, Repr

/-- The generic Errors thrown by EscrowClient, keyed by the spec's error
taxonomy; each constructor corresponds to one throw site and carries the
source's message where it is informative. -/
inductive EscrowError
  | invalidEscrowParams (msg : String)
  | notFound (id : String)
  | invalidState (status : EscrowStatus)
  | invalidProof
  | timeoutNotElapsed
deriving DecidableEq, Repr

/-- The EscrowClient's mutable store (`escrows: Map<string, Escrow>`). -/
abbrev EscrowState := List (String × Escrow)

/-- A plain printer for a condition, standing in for JSON.stringify in the
script-hash fingerprint; its exact value is irrelevant to every claim. -/
def printCondition : Condition → String
  | .timeLock u d => "TIME_LOCK(" ++ u ++ "," ++ d.getD "" ++ ")"
  | .oracle s c f t =>
      "ORACLE(" ++ s ++ "," ++ c ++ "," ++ f.getD "" ++ ","
        ++ (t.map toString).getD "" ++ ")"
  | .multiSig r s c =>
      "MULTI_SIG(" ++ toString r ++ "," ++ String.intercalate "," s ++ ","
        ++ String.intercalate "," (c.getD []) ++ ")"
  | .hashLock a h p => "HASH_LOCK(" ++ a ++ "," ++ h ++ "," ++ p.getD "" ++ ")"
  | .governanceVote p t => "GOVERNANCE_VOTE(" ++ p ++ "," ++ t ++ ")"
  | .custom c i => "CUSTOM(" ++ c ++ "," ++ jsonB64 i ++ ")"

/-- EscrowClient.generateScriptHash: a 16-character fingerprint of the
serialized condition list (base64 abstracted away). -/
def EscrowClient.generateScriptHash (conditions : List Condition) : String :=
  "scripthash_" ++
    (String.intercalate "|" (conditions.map printCondition)).take 16

/-- Math.floor(amount * 100000000): BTC amount to satoshis. -/
def btcToSats (amount : Rat) : Int :=
  Rat.floor (amount * 100000000)

/-- EscrowClient.createEscrowUTXO: the demo-simulated UTXO. -/
def EscrowClient.createEscrowUTXO (params : EscrowParams) (now : Nat) : UTXO :=
  { txid := "tx_" ++ natHex now, vout := 0, value := btcToSats params.amount,
    scriptPubKey := "charms_script_" ++ params.beneficiary.take 8 }

/-- EscrowClient.createEscrow: validates amount > 0, beneficiary nonempty and
at least one condition, then builds and stores the record with status active.
The generated escrow id (Date.now plus a random component in the source) and
the creation time are the `newId` / `now` arguments.  On a validation throw
the store is returned unchanged. -/
def EscrowClient.createEscrow (st : EscrowState) (params : EscrowParams)
    (newId : String) (now : Nat) : Except EscrowError Escrow × EscrowState :=
  if params.amount ≤ 0 then
    (.error (.invalidEscrowParams "Escrow amount must be positive"), st)
  else if params.beneficiary = "" then
    (.error (.invalidEscrowParams "Beneficiary address is required"), st)
  else if params.conditions = [] then
    (.error (.invalidEscrowParams "At least one condition is required"), st)
  else
    let utxo := EscrowClient.createEscrowUTXO params now
    let scriptHash := EscrowClient.generateScriptHash params.conditions
    let escrow : Escrow :=
      { id := newId, utxo := utxo, scriptHash := scriptHash,
        status := .active, createdAt := now, params := params }
    (.ok escrow, registryInsert st newId escrow)

/-- EscrowClient.getEscrow: pure lookup (`this.escrows.get(id) || null`). -/
def EscrowClient.getEscrow (st : EscrowState) (escrowId : String) :
    Option Escrow :=
  registryLookup st escrowId

/-- EscrowClient.verifyProof (the private demo verifier used by
executeRelease): the proof string is nonempty and there is at least one
public input. -/
def EscrowClient.verifyProof (proof : ProofPayload)
    (publicInputs : List String) : Bool :=
  proof.isNonemptyStr && publicInputs.length > 0

/-- Environment draws made during one executeRelease call: the Date.now used
by spendEscrowUTXO and the bridge dispatch draws. -/
structure ReleaseEnv where
  spendNow : Nat
  bridge : BridgeEnv
deriving Repr

/-- Result of executeRelease.  `result` and `state` are what the source
returns and mutates; `trigger` additionally exposes the outcome of the
transient bridge client used for the cross-chain dispatch (the source drops
that object), for specification purposes. -/
structure ReleaseOutcome where
  result : Except EscrowError ReleaseResult
  state : EscrowState
  trigger : Option TriggerOutcome

/-- EscrowClient.executeRelease: NotFound on an unknown id, InvalidState off
the active status, InvalidProof when the internal length check fails; then
spends the UTXO, sets status to released, and — when a cross-chain action is
attached — calls triggerCrossChainAction with only the action argument, so
the escrow id and proof passed to the bridge default to "unknown" and "".
The trigger's error detail is dropped: only txHash and tokenId are copied
into the ReleaseResult. -/
def EscrowClient.executeRelease (st : EscrowState) (params : ReleaseParams)
    (env : ReleaseEnv) : ReleaseOutcome :=
  match EscrowClient.getEscrow st params.escrowId with
  | none => { result := .error (.notFound params.escrowId), state := st,
              trigger := none }
  | some escrow =>
    if escrow.status ≠ .active then
      { result := .error (.invalidState escrow.status), state := st,
        trigger := none }
    else if EscrowClient.verifyProof params.proof params.publicInputs = false then
      { result := .error .invalidProof, state := st, trigger := none }
    else
      let btcTxId := "btc_tx_" ++ natHex env.spendNow
      let st2 := registryInsert st params.escrowId
        { escrow with status := .released }
      match escrow.params.crossChainAction with
      | some action =>
          let t := triggerCrossChainAction action none none env.bridge
          let r : ReleaseResult :=
            { btcTxId := btcTxId, ethTxId := some t.result.txHash,
              status := "success", nftTokenId := t.result.tokenId }
          { result := .ok r, state := st2, trigger := some t }
      | none =>
          let r : ReleaseResult :=
            { btcTxId := btcTxId, ethTxId := none, status := "success",
              nftTokenId := none }
          { result := .ok r, state := st2, trigger := none }

/-- EscrowClient.refundEscrow: NotFound / InvalidState as for release, then
the timeout gate: elapsed seconds since creation (millisecond difference
divided by 1000, exact rational division) must reach the configured timeout,
where `timeout || 604800` defaults both an absent and a zero timeout to
7 days.  On success the status becomes refunded. -/
def EscrowClient.refundEscrow (st : EscrowState) (escrowId : String)
    (now : Nat) : Except EscrowError RefundResult × EscrowState :=
  match EscrowClient.getEscrow st escrowId with
  | none => (.error (.notFound escrowId), st)
  | some escrow =>
    if escrow.status ≠ .active then
      (.error (.invalidState escrow.status), st)
    else
      let timeout : Int := jsIntOr escrow.params.timeout 604800
      let elapsed : Rat := Rat.divInt ((now : Int) - (escrow.createdAt : Int)) 1000
      if elapsed < (timeout : Rat) then
        (.error .timeoutNotElapsed, st)
      else
        (.ok { txId := "refund_" ++ natHex now },
         registryInsert st escrowId { escrow with status := .refunded })

/-! ## Shared case-analysis lemmas for the operations -/

/-- The escrow record built by a successful createEscrow call. -/
def mkEscrowRecord (params : EscrowParams) (newId : String) (now : Nat) :
    Escrow :=
  { id := newId, utxo := EscrowClient.createEscrowUTXO params now,
    scriptHash := EscrowClient.generateScriptHash params.conditions,
    status := .active, createdAt := now, params := params }

theorem createEscrow_cases (st : EscrowState) (params : EscrowParams)
    (newId : String) (now : Nat) :
    ((params.amount ≤ 0 ∨ params.beneficiary = "" ∨ params.conditions = []) ∧
      ∃ msg, EscrowClient.createEscrow st params newId now =
        (.error (.invalidEscrowParams msg), st))
    ∨ (0 < params.amount ∧ params.beneficiary ≠ "" ∧ params.conditions ≠ [] ∧
      EscrowClient.createEscrow st params newId now =
        (.ok (mkEscrowRecord params newId now),
         registryInsert st newId (mkEscrowRecord params newId now))) := by
  unfold EscrowClient.createEscrow
  by_cases h1 : params.amount ≤ 0
  · rw [if_pos h1]
    exact Or.inl ⟨Or.inl h1, _, rfl⟩
  · rw [if_neg h1]
    by_cases h2 : params.beneficiary = ""
    · rw [if_pos h2]
      exact Or.inl ⟨Or.inr (Or.inl h2), _, rfl⟩
    · rw [if_neg h2]
      by_cases h3 : params.conditions = []
      · rw [if_pos h3]
        exact Or.inl ⟨Or.inr (Or.inr h3), _, rfl⟩
      · rw [if_neg h3]
        exact Or.inr ⟨not_le.mp h1, h2, h3, rfl⟩

theorem executeRelease_cases (st : EscrowState) (params : ReleaseParams)
    (env : ReleaseEnv) :
    (EscrowClient.getEscrow st params.escrowId = none ∧
      (EscrowClient.executeRelease st params env).result =
        .error (.notFound params.escrowId) ∧
      (EscrowClient.executeRelease st params env).state = st ∧
      (EscrowClient.executeRelease st params env).trigger = none)
    ∨ (∃ e, EscrowClient.getEscrow st params.escrowId = some e ∧
        e.status ≠ .active ∧
        (EscrowClient.executeRelease st params env).result =
          .error (.invalidState e.status) ∧
        (EscrowClient.executeRelease st params env).state = st ∧
        (EscrowClient.executeRelease st params env).trigger = none)
    ∨ (∃ e, EscrowClient.getEscrow st params.escrowId = some e ∧
        e.status = .active ∧
        EscrowClient.verifyProof params.proof params.publicInputs = false ∧
        (EscrowClient.executeRelease st params env).result =
          .error .invalidProof ∧
        (EscrowClient.executeRelease st params env).state = st ∧
        (EscrowClient.executeRelease st params env).trigger = none)
    ∨ (∃ e, EscrowClient.getEscrow st params.escrowId = some e ∧
        e.status = .active ∧
        EscrowClient.verifyProof params.proof params.publicInputs = true ∧
        (EscrowClient.executeRelease st params env).state =
          registryInsert st params.escrowId { e with status := .released } ∧
        ((∃ action, e.params.crossChainAction = some action ∧
            (EscrowClient.executeRelease st params env).trigger =
              some (triggerCrossChainAction action none none env.bridge) ∧
            (EscrowClient.executeRelease st params env).result =
              .ok ⟨"btc_tx_" ++ natHex env.spendNow,
                some (triggerCrossChainAction action none none
                  env.bridge).result.txHash,
                "success",
                (triggerCrossChainAction action none none
                  env.bridge).result.tokenId⟩)
          ∨ (e.params.crossChainAction = none ∧
            (EscrowClient.executeRelease st params env).trigger = none ∧
            (EscrowClient.executeRelease st params env).result =
              .ok ⟨"btc_tx_" ++ natHex env.spendNow, none, "success",
                none⟩))) := by
  cases hE : EscrowClient.getEscrow st params.escrowId with
  | none =>
    have hrel : EscrowClient.executeRelease st params env =
        { result := .error (.notFound params.escrowId), state := st,
          trigger := none } := by
      unfold EscrowClient.executeRelease
      rw [hE]
    exact Or.inl ⟨rfl, by rw [hrel], by rw [hrel], by rw [hrel]⟩
  | some e =>
    by_cases hact : e.status = .active
    · by_cases hvp :
          EscrowClient.verifyProof params.proof params.publicInputs = false
      · have hrel : EscrowClient.executeRelease st params env =
            { result := .error .invalidProof, state := st, trigger := none } := by
          simp only [EscrowClient.executeRelease, hE]
          rw [if_neg (by simp [hact]), if_pos hvp]
        exact Or.inr (Or.inr (Or.inl ⟨e, rfl, hact, hvp,
          by rw [hrel], by rw [hrel], by rw [hrel]⟩))
      · have hvp' :
            EscrowClient.verifyProof params.proof params.publicInputs = true := by
          simpa using hvp
        cases hA : e.params.crossChainAction with
        | some action =>
          have hrel : EscrowClient.executeRelease st params env =
              { result := .ok ⟨"btc_tx_" ++ natHex env.spendNow,
                  some (triggerCrossChainAction action none none
                    env.bridge).result.txHash,
                  "success",
                  (triggerCrossChainAction action none none
                    env.bridge).result.tokenId⟩,
                state := registryInsert st params.escrowId
                  { e with status := .released },
                trigger := some (triggerCrossChainAction action none none
                  env.bridge) } := by
            simp only [EscrowClient.executeRelease, hE, hA]
            rw [if_neg (by simp [hact]), if_neg hvp]
          exact Or.inr (Or.inr (Or.inr ⟨e, rfl, hact, hvp', by rw [hrel],
            Or.inl ⟨action, hA, by rw [hrel], by rw [hrel]⟩⟩))
        | none =>
          have hrel : EscrowClient.executeRelease st params env =
              { result := .ok ⟨"btc_tx_" ++ natHex env.spendNow, none,
                  "success", none⟩,
                state := registryInsert st params.escrowId
                  { e with status := .released },
                trigger := none } := by
            simp only [EscrowClient.executeRelease, hE, hA]
            rw [if_neg (by simp [hact]), if_neg hvp]
          exact Or.inr (Or.inr (Or.inr ⟨e, rfl, hact, hvp', by rw [hrel],
            Or.inr ⟨hA, by rw [hrel], by rw [hrel]⟩⟩))
    · have hrel : EscrowClient.executeRelease st params env =
          { result := .error (.invalidState e.status), state := st,
            trigger := none } := by
        simp only [EscrowClient.executeRelease, hE]
        rw [if_pos hact]
      exact Or.inr (Or.inl ⟨e, rfl, hact,
        by rw [hrel], by rw [hrel], by rw [hrel]⟩)

/-- The refund timeout gate of refundEscrow, as a standalone predicate:
elapsed seconds since creation are below the configured (JS-defaulted)
timeout. -/
def refundTooEarly (e : Escrow) (now : Nat) : Prop :=
  Rat.divInt ((now : Int) - (e.createdAt : Int)) 1000 <
    ((jsIntOr e.params.timeout 604800 : Int) : Rat)

instance (e : Escrow) (now : Nat) : Decidable (refundTooEarly e now) := by
  unfold refundTooEarly
  infer_instance

theorem refundEscrow_cases (st : EscrowState) (escrowId : String) (now : Nat) :
    (EscrowClient.getEscrow st escrowId = none ∧
      EscrowClient.refundEscrow st escrowId now =
        (.error (.notFound escrowId), st))
    ∨ (∃ e, EscrowClient.getEscrow st escrowId = some e ∧
        e.status ≠ .active ∧
        EscrowClient.refundEscrow st escrowId now =
          (.error (.invalidState e.status), st))
    ∨ (∃ e, EscrowClient.getEscrow st escrowId = some e ∧
        e.status = .active ∧ refundTooEarly e now ∧
        EscrowClient.refundEscrow st escrowId now =
          (.error .timeoutNotElapsed, st))
    ∨ (∃ e, EscrowClient.getEscrow st escrowId = some e ∧
        e.status = .active ∧ ¬ refundTooEarly e now ∧
        EscrowClient.refundEscrow st escrowId now =
          (.ok { txId := "refund_" ++ natHex now },
           registryInsert st escrowId { e with status := .refunded })) := by
  cases hE : EscrowClient.getEscrow st escrowId with
  | none =>
    refine Or.inl ⟨rfl, ?_⟩
    unfold EscrowClient.refundEscrow
    rw [hE]
  | some e =>
    by_cases hact : e.status = .active
    · by_cases hgate : refundTooEarly e now
      · refine Or.inr (Or.inr (Or.inl ⟨e, rfl, hact, hgate, ?_⟩))
        unfold refundTooEarly at hgate
        simp only [EscrowClient.refundEscrow, hE]
        rw [if_neg (by simp [hact]), if_pos hgate]
      · refine Or.inr (Or.inr (Or.inr ⟨e, rfl, hact, hgate, ?_⟩))
        unfold refundTooEarly at hgate
        simp only [EscrowClient.refundEscrow, hE]
        rw [if_neg (by simp [hact]), if_neg hgate]
    · refine Or.inr (Or.inl ⟨e, rfl, hact, ?_⟩)
      simp only [EscrowClient.refundEscrow, hE]
      rw [if_pos hact]

theorem triggerAction_cases (bc : BridgeState) (action : CrossChainAction)
    (escrowId proof : String) (env : BridgeEnv) :
    (BridgeClient.triggerAction bc action escrowId proof env).actionId =
        escrowId ++ "_" ++ toString env.now ∧
    (BridgeClient.triggerAction bc action escrowId proof env).message =
        { sourceChain := "bitcoin", targetChain := action.chain,
          escrowId := escrowId, action := action, proof := proof,
          timestamp := env.now } ∧
    ((∃ rpcUrl, BridgeClient.getRpcUrl bc.config action.chain = .ok rpcUrl ∧
        (BridgeClient.triggerAction bc action escrowId proof env).result =
          BridgeClient.executeOnChain action rpcUrl env ∧
        (BridgeClient.triggerAction bc action escrowId proof env).client.pendingActions =
          registryErase
            (registryInsert bc.pendingActions
              (escrowId ++ "_" ++ toString env.now)
              (BridgeClient.triggerAction bc action escrowId proof env).message)
            (escrowId ++ "_" ++ toString env.now))
      ∨ (∃ msg, BridgeClient.getRpcUrl bc.config action.chain = .error msg ∧
        (BridgeClient.triggerAction bc action escrowId proof env).result =
          { txHash := "", blockNumber := none, status := .failed,
            tokenId := none, error := some msg } ∧
        (BridgeClient.triggerAction bc action escrowId proof env).client.pendingActions =
          registryInsert bc.pendingActions
            (escrowId ++ "_" ++ toString env.now)
            (BridgeClient.triggerAction bc action escrowId proof env).message)) := by
  unfold BridgeClient.triggerAction
  cases hR : BridgeClient.getRpcUrl bc.config action.chain with
  | ok rpcUrl => exact ⟨rfl, rfl, Or.inl ⟨rpcUrl, rfl, rfl, rfl⟩⟩
  | error msg => exact ⟨rfl, rfl, Or.inr ⟨msg, rfl, rfl, rfl⟩⟩

/-! ## Sample data used by witnesses and counterexamples -/

def sampleCondition : Condition := .timeLock "2030-01-01" none

def sampleParams : EscrowParams :=
  { amount := 1, beneficiary := "addr1", conditions := [sampleCondition] }

def sampleEscrow : Escrow :=
  { id := "e1",
    utxo := { txid := "t0", vout := 0, value := 100000000,
              scriptPubKey := "s0" },
    scriptHash := "h0", status := .active, createdAt := 0,
    params := sampleParams }

def sampleBridgeEnv : BridgeEnv :=
  { now := 9, randHex := "ab", randToken := 5, randBlock := 3 }

def sampleReleaseEnv : ReleaseEnv := { spendNow := 7, bridge := sampleBridgeEnv }

def sampleReleaseParams : ReleaseParams :=
  { escrowId := "e1", proof := .undecodable "zkp", publicInputs := ["a"] }

/-! ## Claims about the proof module -/

/-- C10: Conditions.multiSig throws exactly when required exceeds
signers.length, so it accepts required = 0 for every signer list, and the
resulting MULTI_SIG condition is rejected by validateCondition, which
demands required > 0. -/
theorem multiSig_builder_zero_required :
    (∀ (required : Int) (signers : List String),
      required > (signers.length : Int) →
      Conditions.multiSig required signers =
        .error "Required signatures cannot exceed number of signers")
    ∧ (∀ signers : List String,
      Conditions.multiSig 0 signers = .ok (.multiSig 0 signers none)
      ∧ validateCondition (.multiSig 0 signers none) = false) := by
  constructor
  · intro required signers h
    unfold Conditions.multiSig
    rw [if_pos h]
  · intro signers
    constructor
    · unfold Conditions.multiSig
      rw [if_neg (not_lt.mpr (Int.natCast_nonneg _))]
    · rfl

/-- Witness for C10 at signers = ["s1"]. -/
theorem multiSig_builder_zero_required_witness :
    ((2 : Int) > (([ "s1" ] : List String).length : Int))
    ∧ Conditions.multiSig 2 ["s1"] =
        .error "Required signatures cannot exceed number of signers"
    ∧ Conditions.multiSig 0 ["s1"] = .ok (.multiSig 0 ["s1"] none)
    ∧ validateCondition (.multiSig 0 ["s1"] none) = false :=
  ⟨by decide, multiSig_builder_zero_required.1 2 ["s1"] (by decide),
   (multiSig_builder_zero_required.2 ["s1"]).1,
   (multiSig_builder_zero_required.2 ["s1"]).2⟩

/-- C7: circuit-identifier derivation is deterministic and order-independent:
no conditions gives the generic fallback identifier, and requests whose
condition lists are permutations of each other give equal identifiers. -/
theorem circuitId_deterministic :
    (∀ req : ProofRequest,
      (req.conditions = none ∨ req.conditions = some []) →
      ProofGenerator.determineCircuitId req = "generic_escrow_v1")
    ∧ (∀ r1 r2 : ProofRequest,
      (r1.conditions.getD []).Perm (r2.conditions.getD []) →
      ProofGenerator.determineCircuitId r1 =
        ProofGenerator.determineCircuitId r2) := by
  constructor
  · intro req h
    simp only [ProofGenerator.determineCircuitId]
    rcases h with h | h <;> rw [h] <;> rfl
  · intro r1 r2 hperm
    simp only [ProofGenerator.determineCircuitId]
    by_cases h1 : r1.conditions.getD [] = []
    · have h2 : r2.conditions.getD [] = [] := by
        rw [h1] at hperm
        exact hperm.symm.eq_nil
      rw [h1, h2]
    · have h2 : ¬ r2.conditions.getD [] = [] := by
        intro hc
        rw [hc] at hperm
        exact h1 hperm.eq_nil
      rw [if_neg h1, if_neg h2]
      have hsort :
          List.insertionSort (· ≤ ·)
            ((r1.conditions.getD []).map Condition.type) =
          List.insertionSort (· ≤ ·)
            ((r2.conditions.getD []).map Condition.type) := by
        apply List.eq_of_perm_of_sorted (r := (· ≤ ·))
        · exact ((List.perm_insertionSort _ _).trans
            (hperm.map Condition.type)).trans
            (List.perm_insertionSort _ _).symm
        · exact List.sorted_insertionSort _ _
        · exact List.sorted_insertionSort _ _
      rw [hsort]

def reqNoConditions : ProofRequest :=
  { escrowId := "esc", conditionData := [("k", "v")], conditions := none }

def reqOracleThenTime : ProofRequest :=
  { escrowId := "esc", conditionData := [("k", "v")],
    conditions := some [.oracle "chainlink" "c" none none,
                        .timeLock "t" none] }

def reqTimeThenOracle : ProofRequest :=
  { escrowId := "esc", conditionData := [("k", "v")],
    conditions := some [.timeLock "t" none,
                        .oracle "chainlink" "c" none none] }

/-- Witness for C7: the generic fallback on a condition-free request and
order-independence on two permuted two-condition lists. -/
theorem circuitId_deterministic_witness :
    (reqNoConditions.conditions = none ∨ reqNoConditions.conditions = some [])
    ∧ ProofGenerator.determineCircuitId reqNoConditions = "generic_escrow_v1"
    ∧ (reqOracleThenTime.conditions.getD []).Perm
        (reqTimeThenOracle.conditions.getD [])
    ∧ ProofGenerator.determineCircuitId reqOracleThenTime =
        ProofGenerator.determineCircuitId reqTimeThenOracle :=
  ⟨Or.inl rfl, circuitId_deterministic.1 reqNoConditions (Or.inl rfl),
   by decide,
   circuitId_deterministic.2 reqOracleThenTime reqTimeThenOracle (by decide)⟩

/-- C6: verifyProof round-trips with generateProof on every well-formed
request, and rejects every attestation whose payload fails to decode or
embeds a circuit identifier different from the declared one, without
throwing (verifyProof is total). -/
theorem proof_roundtrip_tamper :
    (∀ (req : ProofRequest) (now : Nat) (nonce : String),
      req.escrowId ≠ "" → req.conditionData ≠ [] →
      (ProofGenerator.generateProof req now nonce).map
        (fun p => (ProofGenerator.verifyProof p).valid) = .ok true)
    ∧ (∀ att : Proof, circuitMismatch att = true →
      (ProofGenerator.verifyProof att).valid = false) := by
  constructor
  · intro req now nonce h1 h2
    unfold ProofGenerator.generateProof
    rw [if_neg h1, if_neg h2]
    simp [ProofGenerator.verifyProof, ProofGenerator.performVerification,
      ProofGenerator.createProof, decodeProofData, Except.map]
  · intro att h
    unfold circuitMismatch at h
    unfold ProofGenerator.verifyProof ProofGenerator.performVerification
    cases hd : decodeProofData att.proof with
    | none => rfl
    | some d =>
      rw [hd] at h
      simpa using h

def tamperedData : ProofData :=
  { circuitId := "circuit_a", witnessHash := "w", timestamp := 0,
    version := "1.0.0" }

def tamperedAtt : Proof :=
  { proof := .encoded tamperedData, publicInputs := [], verified := true,
    timestamp := 0, circuitId := "circuit_b" }

def garbageAtt : Proof :=
  { proof := .undecodable "not-base64-json", publicInputs := [],
    verified := true, timestamp := 0, circuitId := "circuit_a" }

/-- Witness for C6: the round trip on a concrete request, and rejection of a
tampered and an undecodable attestation. -/
theorem proof_roundtrip_tamper_witness :
    reqNoConditions.escrowId ≠ "" ∧ reqNoConditions.conditionData ≠ []
    ∧ (ProofGenerator.generateProof reqNoConditions 0 "nonce").map
        (fun p => (ProofGenerator.verifyProof p).valid) = .ok true
    ∧ circuitMismatch tamperedAtt = true
    ∧ (ProofGenerator.verifyProof tamperedAtt).valid = false
    ∧ circuitMismatch garbageAtt = true
    ∧ (ProofGenerator.verifyProof garbageAtt).valid = false :=
  ⟨by decide, by decide,
   proof_roundtrip_tamper.1 reqNoConditions 0 "nonce" (by decide) (by decide),
   by decide, proof_roundtrip_tamper.2 tamperedAtt (by decide),
   by decide, proof_roundtrip_tamper.2 garbageAtt (by decide)⟩

/-! ## Claims about the escrow state machine -/

/-- C1: every escrow returned by createEscrow has status active;
executeRelease succeeds only from active and stores the record with status
released; refundEscrow succeeds only from active and stores the record with
status refunded; and no operation moves an escrow whose status is released
or refunded back (its stored record is untouched), where createEscrow is
taken with a fresh generated id, as the collision-resistant generator
intends. -/
theorem escrow_status_lifecycle :
    (∀ (st : EscrowState) (params : EscrowParams) (newId : String) (now : Nat),
      0 < params.amount → params.beneficiary ≠ "" → params.conditions ≠ [] →
      ∃ e, (EscrowClient.createEscrow st params newId now).1 = .ok e ∧
        e.status = .active)
    ∧ (∀ (st : EscrowState) (params : ReleaseParams) (env : ReleaseEnv),
      (EscrowClient.executeRelease st params env).result.isOk = true →
      ∃ e, EscrowClient.getEscrow st params.escrowId = some e ∧
        e.status = .active ∧
        EscrowClient.getEscrow
          (EscrowClient.executeRelease st params env).state params.escrowId
          = some { e with status := .released })
    ∧ (∀ (st : EscrowState) (id : String) (now : Nat),
      ((EscrowClient.refundEscrow st id now).1).isOk = true →
      ∃ e, EscrowClient.getEscrow st id = some e ∧ e.status = .active ∧
        EscrowClient.getEscrow (EscrowClient.refundEscrow st id now).2 id
          = some { e with status := .refunded })
    ∧ (∀ (st : EscrowState) (id : String) (e : Escrow),
      EscrowClient.getEscrow st id = some e →
      (e.status = .released ∨ e.status = .refunded) →
      (∀ params env,
        EscrowClient.getEscrow
          (EscrowClient.executeRelease st params env).state id = some e)
      ∧ (∀ (id2 : String) (now : Nat),
        EscrowClient.getEscrow (EscrowClient.refundEscrow st id2 now).2 id
          = some e)
      ∧ (∀ (params : EscrowParams) (newId : String) (now : Nat), newId ≠ id →
        EscrowClient.getEscrow
          (EscrowClient.createEscrow st params newId now).2 id = some e)) := by
  refine ⟨?_, ?_, ?_, ?_⟩
  · intro st params newId now h1 h2 h3
    rcases createEscrow_cases st params newId now with
      ⟨hbad, _, _⟩ | ⟨_, _, _, heq⟩
    · rcases hbad with hb | hb | hb
      · exact absurd hb (not_le.mpr h1)
      · exact absurd hb h2
      · exact absurd hb h3
    · exact ⟨mkEscrowRecord params newId now, by rw [heq], rfl⟩
  · intro st params env hok
    rcases executeRelease_cases st params env with
      ⟨_, hres, _, _⟩ | ⟨e, _, _, hres, _, _⟩ | ⟨e, _, _, _, hres, _, _⟩ |
      ⟨e, hE, hact, _, hstate, _⟩
    · rw [hres] at hok
      simp [Except.isOk, Except.toBool] at hok
    · rw [hres] at hok
      simp [Except.isOk, Except.toBool] at hok
    · rw [hres] at hok
      simp [Except.isOk, Except.toBool] at hok
    · refine ⟨e, hE, hact, ?_⟩
      rw [hstate]
      exact registryLookup_insert_same _ _ _
  · intro st id now hok
    rcases refundEscrow_cases st id now with
      ⟨_, heq⟩ | ⟨e, _, _, heq⟩ | ⟨e, _, _, _, heq⟩ | ⟨e, hE, hact, _, heq⟩
    · rw [heq] at hok
      simp [Except.isOk, Except.toBool] at hok
    · rw [heq] at hok
      simp [Except.isOk, Except.toBool] at hok
    · rw [heq] at hok
      simp [Except.isOk, Except.toBool] at hok
    · refine ⟨e, hE, hact, ?_⟩
      rw [heq]
      exact registryLookup_insert_same _ _ _
  · intro st id e hE hterm
    have hact : e.status ≠ .active := by
      rcases hterm with h | h <;> rw [h] <;> decide
    refine ⟨?_, ?_, ?_⟩
    · intro params env
      rcases executeRelease_cases st params env with
        ⟨_, _, hstate, _⟩ | ⟨e', _, _, _, hstate, _⟩ |
        ⟨e', _, _, _, _, hstate, _⟩ | ⟨e', hE', hact', _, hstate, _⟩
      · rw [hstate]; exact hE
      · rw [hstate]; exact hE
      · rw [hstate]; exact hE
      · by_cases hid : params.escrowId = id
        · rw [hid] at hE'
          rw [hE'] at hE
          have : e' = e := by injection hE
          rw [this] at hact'
          exact absurd hact' hact
        · rw [hstate]
          exact (registryLookup_insert_other st params.escrowId id _
            (fun hc => hid hc.symm)).trans hE
    · intro id2 now
      rcases refundEscrow_cases st id2 now with
        ⟨_, heq⟩ | ⟨e', _, _, heq⟩ | ⟨e', _, _, _, heq⟩ |
        ⟨e', hE', hact', _, heq⟩
      · rw [heq]; exact hE
      · rw [heq]; exact hE
      · rw [heq]; exact hE
      · by_cases hid : id2 = id
        · rw [hid] at hE'
          rw [hE'] at hE
          have : e' = e := by injection hE
          rw [this] at hact'
          rw [hact'] at hact
          exact absurd rfl hact
        · rw [heq]
          exact (registryLookup_insert_other st id2 id _
            (fun hc => hid hc.symm)).trans hE
    · intro params newId now hfresh
      rcases createEscrow_cases st params newId now with
        ⟨_, _, heq⟩ | ⟨_, _, _, heq⟩
      · rw [heq]; exact hE
      · rw [heq]
        exact (registryLookup_insert_other st newId id _
          (fun hc => hfresh hc.symm)).trans hE

def releasedEscrow : Escrow := { sampleEscrow with status := .released }

/-- Witness for C1 on concrete stores: creation yields active, a concrete
release and refund transition active to released / refunded, and a released
record survives release, refund and fresh-id creation untouched. -/
theorem escrow_status_lifecycle_witness :
    (∃ e, (EscrowClient.createEscrow [] sampleParams "e1" 0).1 = .ok e ∧
      e.status = .active)
    ∧ (∃ e, EscrowClient.getEscrow [("e1", sampleEscrow)] "e1" = some e ∧
      e.status = .active ∧
      EscrowClient.getEscrow
        (EscrowClient.executeRelease [("e1", sampleEscrow)]
          sampleReleaseParams sampleReleaseEnv).state "e1"
        = some { e with status := .released })
    ∧ (∃ e, EscrowClient.getEscrow [("e1", sampleEscrow)] "e1" = some e ∧
      e.status = .active ∧
      EscrowClient.getEscrow
        (EscrowClient.refundEscrow [("e1", sampleEscrow)] "e1" 604801000).2
        "e1" = some { e with status := .refunded })
    ∧ EscrowClient.getEscrow
        (EscrowClient.executeRelease [("e1", releasedEscrow)]
          sampleReleaseParams sampleReleaseEnv).state "e1"
        = some releasedEscrow
    ∧ EscrowClient.getEscrow
        (EscrowClient.refundEscrow [("e1", releasedEscrow)] "e1"
          999999999).2 "e1" = some releasedEscrow
    ∧ EscrowClient.getEscrow
        (EscrowClient.createEscrow [("e1", releasedEscrow)] sampleParams
          "e2" 0).2 "e1" = some releasedEscrow :=
  ⟨escrow_status_lifecycle.1 [] sampleParams "e1" 0 (by decide) (by decide)
    (by decide),
   escrow_status_lifecycle.2.1 [("e1", sampleEscrow)] sampleReleaseParams
    sampleReleaseEnv (by rfl),
   escrow_status_lifecycle.2.2.1 [("e1", sampleEscrow)] "e1" 604801000
    (by rfl),
   (escrow_status_lifecycle.2.2.2 [("e1", releasedEscrow)] "e1"
     releasedEscrow rfl (Or.inl rfl)).1 sampleReleaseParams sampleReleaseEnv,
   (escrow_status_lifecycle.2.2.2 [("e1", releasedEscrow)] "e1"
     releasedEscrow rfl (Or.inl rfl)).2.1 "e1" 999999999,
   (escrow_status_lifecycle.2.2.2 [("e1", releasedEscrow)] "e1"
     releasedEscrow rfl (Or.inl rfl)).2.2 sampleParams "e2" 0 (by decide)⟩

/-- C2 counterexample: release verification is not the Proof Service check.
On a concrete active escrow, executeRelease succeeds with an undecodable
proof string, although the Proof Service's verifyProof rejects every
attestation carrying that payload. -/
theorem executeRelease_not_proof_service_cex :
    ((EscrowClient.executeRelease [("e1", sampleEscrow)]
      sampleReleaseParams sampleReleaseEnv).result).isOk = true
    ∧ (ProofGenerator.verifyProof
        { proof := .undecodable "zkp", publicInputs := ["a"],
          verified := true, timestamp := 0,
          circuitId := "generic_escrow_v1" }).valid = false :=
  ⟨rfl, rfl⟩

/-- C2 amended: executeRelease fails with NotFound on an unknown id and with
InvalidState off the active status; proof checking is the client's internal
check that the proof string is nonempty and at least one public input is
supplied (not the Proof Service of section 4.2), and failing that check
yields InvalidProof; on every failure the store is unchanged, and when the
internal check passes from active the call succeeds. -/
theorem executeRelease_error_paths :
    ∀ (st : EscrowState) (params : ReleaseParams) (env : ReleaseEnv),
    (EscrowClient.getEscrow st params.escrowId = none →
      (EscrowClient.executeRelease st params env).result =
        .error (.notFound params.escrowId) ∧
      (EscrowClient.executeRelease st params env).state = st)
    ∧ (∀ e, EscrowClient.getEscrow st params.escrowId = some e →
      e.status ≠ .active →
      (EscrowClient.executeRelease st params env).result =
        .error (.invalidState e.status) ∧
      (EscrowClient.executeRelease st params env).state = st)
    ∧ (∀ e, EscrowClient.getEscrow st params.escrowId = some e →
      e.status = .active →
      EscrowClient.verifyProof params.proof params.publicInputs = false →
      (EscrowClient.executeRelease st params env).result =
        .error .invalidProof ∧
      (EscrowClient.executeRelease st params env).state = st)
    ∧ (∀ e, EscrowClient.getEscrow st params.escrowId = some e →
      e.status = .active →
      EscrowClient.verifyProof params.proof params.publicInputs = true →
      (EscrowClient.executeRelease st params env).result.isOk = true) := by
  intro st params env
  rcases executeRelease_cases st params env with
    ⟨hE, hres, hstate, _⟩ | ⟨e, hE, hact, hres, hstate, _⟩ |
    ⟨e, hE, hact, hvp, hres, hstate, _⟩ | ⟨e, hE, hact, hvp, hstate, hrest⟩
  · refine ⟨fun _ => ⟨hres, hstate⟩, ?_, ?_, ?_⟩
    · intro e' hE'
      rw [hE] at hE'
      exact absurd hE' (by simp)
    · intro e' hE'
      rw [hE] at hE'
      exact absurd hE' (by simp)
    · intro e' hE'
      rw [hE] at hE'
      exact absurd hE' (by simp)
  · refine ⟨?_, ?_, ?_, ?_⟩
    · intro hE'
      rw [hE] at hE'
      exact absurd hE' (by simp)
    · intro e' hE' _
      rw [hE] at hE'
      have he : e = e' := by injection hE'
      rw [← he]
      exact ⟨hres, hstate⟩
    · intro e' hE' hact' _
      rw [hE] at hE'
      have he : e = e' := by injection hE'
      rw [← he] at hact'
      exact absurd hact' hact
    · intro e' hE' hact' _
      rw [hE] at hE'
      have he : e = e' := by injection hE'
      rw [← he] at hact'
      exact absurd hact' hact
  · refine ⟨?_, ?_, ?_, ?_⟩
    · intro hE'
      rw [hE] at hE'
      exact absurd hE' (by simp)
    · intro e' hE' hact'
      rw [hE] at hE'
      have he : e = e' := by injection hE'
      rw [← he] at hact'
      exact absurd hact hact'
    · intro e' _ _ _
      exact ⟨hres, hstate⟩
    · intro e' _ _ hvp'
      rw [hvp'] at hvp
      exact absurd hvp (by simp)
  · refine ⟨?_, ?_, ?_, ?_⟩
    · intro hE'
      rw [hE] at hE'
      exact absurd hE' (by simp)
    · intro e' hE' hact'
      rw [hE] at hE'
      have he : e = e' := by injection hE'
      rw [← he] at hact'
      exact absurd hact hact'
    · intro e' _ _ hvp'
      rw [hvp'] at hvp
      exact absurd hvp (by simp)
    · intro e' _ _ _
      rcases hrest with ⟨action, _, _, hres⟩ | ⟨_, _, hres⟩ <;>
        rw [hres] <;> rfl

def releasedStore : EscrowState := [("e1", releasedEscrow)]

/-- Witness for the amended C2: the three failure paths and the success path
on concrete stores and parameters, with the store unchanged on failure. -/
theorem executeRelease_error_paths_witness :
    (EscrowClient.getEscrow ([] : EscrowState) "nope" = none
      ∧ (EscrowClient.executeRelease []
          { escrowId := "nope", proof := .undecodable "x",
            publicInputs := ["a"] } sampleReleaseEnv).result =
          .error (.notFound "nope")
      ∧ (EscrowClient.executeRelease []
          { escrowId := "nope", proof := .undecodable "x",
            publicInputs := ["a"] } sampleReleaseEnv).state = [])
    ∧ ((EscrowClient.executeRelease releasedStore sampleReleaseParams
          sampleReleaseEnv).result = .error (.invalidState .released)
      ∧ (EscrowClient.executeRelease releasedStore sampleReleaseParams
          sampleReleaseEnv).state = releasedStore)
    ∧ ((EscrowClient.executeRelease [("e1", sampleEscrow)]
          { escrowId := "e1", proof := .undecodable "",
            publicInputs := ["a"] } sampleReleaseEnv).result =
          .error .invalidProof
      ∧ (EscrowClient.executeRelease [("e1", sampleEscrow)]
          { escrowId := "e1", proof := .undecodable "",
            publicInputs := ["a"] } sampleReleaseEnv).state =
          [("e1", sampleEscrow)])
    ∧ (EscrowClient.executeRelease [("e1", sampleEscrow)]
        sampleReleaseParams sampleReleaseEnv).result.isOk = true :=
  ⟨⟨rfl,
    (executeRelease_error_paths []
      { escrowId := "nope", proof := .undecodable "x", publicInputs := ["a"] }
      sampleReleaseEnv).1 rfl⟩,
   (executeRelease_error_paths releasedStore sampleReleaseParams
      sampleReleaseEnv).2.1 releasedEscrow rfl (by decide),
   (executeRelease_error_paths [("e1", sampleEscrow)]
      { escrowId := "e1", proof := .undecodable "", publicInputs := ["a"] }
      sampleReleaseEnv).2.2.1 sampleEscrow rfl rfl rfl,
   (executeRelease_error_paths [("e1", sampleEscrow)] sampleReleaseParams
      sampleReleaseEnv).2.2.2 sampleEscrow rfl rfl rfl⟩

/-- C3 counterexample: a structurally invalid condition (MULTI_SIG with
required = 0, rejected by validateCondition) is accepted by createEscrow,
which never invokes validateCondition. -/
theorem createEscrow_skips_condition_validation_cex :
    validateCondition (.multiSig 0 [] none) = false
    ∧ ((EscrowClient.createEscrow []
        { amount := 1, beneficiary := "addr1",
          conditions := [.multiSig 0 [] none] } "e1" 0).1).isOk = true :=
  ⟨rfl, rfl⟩

/-- C3 amended: createEscrow fails with InvalidEscrowParams exactly when the
amount is not positive, the beneficiary is empty, or the condition list is
empty — structural validity of the individual conditions is not checked —
and on failure no record is persisted (the store is unchanged). -/
theorem createEscrow_validation :
    ∀ (st : EscrowState) (params : EscrowParams) (newId : String) (now : Nat),
    (((EscrowClient.createEscrow st params newId now).1.isOk = false) ↔
      (params.amount ≤ 0 ∨ params.beneficiary = "" ∨ params.conditions = []))
    ∧ ((EscrowClient.createEscrow st params newId now).1.isOk = false →
      (∃ msg, (EscrowClient.createEscrow st params newId now).1 =
        .error (.invalidEscrowParams msg)) ∧
      (EscrowClient.createEscrow st params newId now).2 = st) := by
  intro st params newId now
  rcases createEscrow_cases st params newId now with
    ⟨hbad, msg, heq⟩ | ⟨h1, h2, h3, heq⟩
  · constructor
    · constructor
      · intro _
        exact hbad
      · intro _
        rw [heq]
        rfl
    · intro _
      exact ⟨⟨msg, by rw [heq]⟩, by rw [heq]⟩
  · constructor
    · constructor
      · intro hfail
        rw [heq] at hfail
        exact absurd hfail (by simp [Except.isOk, Except.toBool])
      · intro hbad
        rcases hbad with hb | hb | hb
        · exact absurd hb (not_le.mpr h1)
        · exact absurd hb h2
        · exact absurd hb h3
    · intro hfail
      rw [heq] at hfail
      exact absurd hfail (by simp [Except.isOk, Except.toBool])

/-- Witness for the amended C3 at amount = 0: creation fails with
InvalidEscrowParams and the store stays empty. -/
theorem createEscrow_validation_witness :
    (((0 : Rat) ≤ 0 ∨ ("addr1" : String) = "" ∨
        ([sampleCondition] : List Condition) = []))
    ∧ (EscrowClient.createEscrow []
        { amount := 0, beneficiary := "addr1",
          conditions := [sampleCondition] } "e1" 0).1.isOk = false
    ∧ (∃ msg, (EscrowClient.createEscrow []
        { amount := 0, beneficiary := "addr1",
          conditions := [sampleCondition] } "e1" 0).1 =
        .error (.invalidEscrowParams msg))
    ∧ (EscrowClient.createEscrow []
        { amount := 0, beneficiary := "addr1",
          conditions := [sampleCondition] } "e1" 0).2 = [] :=
  have hk := createEscrow_validation []
    { amount := 0, beneficiary := "addr1", conditions := [sampleCondition] }
    "e1" 0
  have hfail := hk.1.mpr (Or.inl (by decide))
  ⟨Or.inl (by decide), hfail, (hk.2 hfail).1, (hk.2 hfail).2⟩

def zeroTimeoutEscrow : Escrow :=
  { sampleEscrow with
    params := { sampleParams with timeout := some 0 } }

/-- C5 counterexample: a supplied timeout of 0 is falsy, so the code replaces
it with the 7-day default.  On an escrow created at time 0 with timeout 0,
refund at 5000 seconds elapsed fails with TimeoutNotElapsed, although the
elapsed time (5000 s) is not below the configured timeout (0 s) that the
claim says governs the gate. -/
theorem refund_zero_timeout_cex :
    zeroTimeoutEscrow.params.timeout = some 0
    ∧ ¬ (Rat.divInt ((5000000 : Int) - (0 : Int)) 1000 < ((0 : Int) : Rat))
    ∧ (EscrowClient.refundEscrow [("e1", zeroTimeoutEscrow)] "e1"
        5000000).1 = .error .timeoutNotElapsed :=
  ⟨rfl, by decide, rfl⟩

/-- C5 amended: refundEscrow fails with NotFound on an unknown id and with
InvalidState off the active status; otherwise it fails with
TimeoutNotElapsed exactly when the elapsed seconds since creation are below
the configured timeout, where the 7-day default (604800 s) applies both when
no timeout was supplied and when the supplied timeout is 0 (JS falsiness);
past the gate it succeeds and stores the record with status refunded. -/
theorem refundEscrow_spec :
    ∀ (st : EscrowState) (id : String) (now : Nat),
    (EscrowClient.getEscrow st id = none →
      EscrowClient.refundEscrow st id now = (.error (.notFound id), st))
    ∧ (∀ e, EscrowClient.getEscrow st id = some e → e.status ≠ .active →
      EscrowClient.refundEscrow st id now =
        (.error (.invalidState e.status), st))
    ∧ (∀ e, EscrowClient.getEscrow st id = some e → e.status = .active →
      Rat.divInt ((now : Int) - (e.createdAt : Int)) 1000 <
        ((jsIntOr e.params.timeout 604800 : Int) : Rat) →
      EscrowClient.refundEscrow st id now = (.error .timeoutNotElapsed, st))
    ∧ (∀ e, EscrowClient.getEscrow st id = some e → e.status = .active →
      ¬ (Rat.divInt ((now : Int) - (e.createdAt : Int)) 1000 <
        ((jsIntOr e.params.timeout 604800 : Int) : Rat)) →
      (EscrowClient.refundEscrow st id now).1 =
        .ok { txId := "refund_" ++ natHex now } ∧
      EscrowClient.getEscrow (EscrowClient.refundEscrow st id now).2 id =
        some { e with status := .refunded }) := by
  intro st id now
  rcases refundEscrow_cases st id now with
    ⟨hE, heq⟩ | ⟨e, hE, hact, heq⟩ | ⟨e, hE, hact, hgate, heq⟩ |
    ⟨e, hE, hact, hgate, heq⟩
  · refine ⟨fun _ => heq, ?_, ?_, ?_⟩ <;>
      · intro e' hE'
        rw [hE] at hE'
        exact absurd hE' (by simp)
  · refine ⟨?_, ?_, ?_, ?_⟩
    · intro hE'
      rw [hE] at hE'
      exact absurd hE' (by simp)
    · intro e' hE' _
      rw [hE] at hE'
      have he : e = e' := by injection hE'
      rw [← he]
      exact heq
    · intro e' hE' hact' _
      rw [hE] at hE'
      have he : e = e' := by injection hE'
      rw [← he] at hact'
      exact absurd hact' hact
    · intro e' hE' hact' _
      rw [hE] at hE'
      have he : e = e' := by injection hE'
      rw [← he] at hact'
      exact absurd hact' hact
  · refine ⟨?_, ?_, ?_, ?_⟩
    · intro hE'
      rw [hE] at hE'
      exact absurd hE' (by simp)
    · intro e' hE' hact'
      rw [hE] at hE'
      have he : e = e' := by injection hE'
      rw [← he] at hact'
      exact absurd hact hact'
    · intro e' _ _ _
      exact heq
    · intro e' hE' _ hgate'
      rw [hE] at hE'
      have he : e = e' := by injection hE'
      rw [← he] at hgate'
      exact absurd hgate hgate'
  · refine ⟨?_, ?_, ?_, ?_⟩
    · intro hE'
      rw [hE] at hE'
      exact absurd hE' (by simp)
    · intro e' hE' hact'
      rw [hE] at hE'
      have he : e = e' := by injection hE'
      rw [← he] at hact'
      exact absurd hact hact'
    · intro e' hE' _ hgate'
      rw [hE] at hE'
      have he : e = e' := by injection hE'
      rw [← he] at hgate'
      exact absurd hgate' hgate
    · intro e' hE' _ _
      rw [hE] at hE'
      have he : e = e' := by injection hE'
      rw [← he]
      constructor
      · rw [heq]
      · rw [heq]
        exact registryLookup_insert_same _ _ _

/-- Witness for the amended C5: a refund 5 seconds after creation of a
default-timeout escrow fails with TimeoutNotElapsed, and a refund past the
7-day default succeeds and stores status refunded. -/
theorem refundEscrow_spec_witness :
    (Rat.divInt ((5000 : Int) - (0 : Int)) 1000 <
      ((jsIntOr sampleEscrow.params.timeout 604800 : Int) : Rat))
    ∧ EscrowClient.refundEscrow [("e1", sampleEscrow)] "e1" 5000 =
        (.error .timeoutNotElapsed, [("e1", sampleEscrow)])
    ∧ ¬ (Rat.divInt ((604801000 : Int) - (0 : Int)) 1000 <
      ((jsIntOr sampleEscrow.params.timeout 604800 : Int) : Rat))
    ∧ (EscrowClient.refundEscrow [("e1", sampleEscrow)] "e1" 604801000).1 =
        .ok { txId := "refund_" ++ natHex 604801000 }
    ∧ EscrowClient.getEscrow
        (EscrowClient.refundEscrow [("e1", sampleEscrow)] "e1" 604801000).2
        "e1" = some { sampleEscrow with status := .refunded } :=
  ⟨by decide,
   (refundEscrow_spec [("e1", sampleEscrow)] "e1" 5000).2.2.1 sampleEscrow
     rfl rfl (by decide),
   by decide,
   ((refundEscrow_spec [("e1", sampleEscrow)] "e1" 604801000).2.2.2
     sampleEscrow rfl rfl (by decide)).1,
   ((refundEscrow_spec [("e1", sampleEscrow)] "e1" 604801000).2.2.2
     sampleEscrow rfl rfl (by decide)).2⟩

def polygonAction : CrossChainAction :=
  { chain := "polygon", contract := "0xc", method := "mintNFT", params := [] }

def polygonParams : EscrowParams :=
  { sampleParams with crossChainAction := some polygonAction }

def escrowWithPolygonAction : Escrow :=
  { sampleEscrow with params := polygonParams }

/-- C4 counterexample: an escrow whose action targets polygon while the
release-path bridge client (always freshly constructed with the default
config) has no polygon endpoint.  executeRelease with a valid proof
transitions to released, but the missing endpoint resolves to the empty
string and the simulated dispatch confirms: no UnsupportedEnvironment
failure detail appears anywhere in the outcome. -/
theorem release_missing_endpoint_cex :
    (mkBridgeClient {}).config.polygonRpc = none
    ∧ ((EscrowClient.executeRelease [("e1", escrowWithPolygonAction)]
        sampleReleaseParams sampleReleaseEnv).result).isOk = true
    ∧ EscrowClient.getEscrow
        (EscrowClient.executeRelease [("e1", escrowWithPolygonAction)]
          sampleReleaseParams sampleReleaseEnv).state "e1" =
        some { escrowWithPolygonAction with status := .released }
    ∧ ((EscrowClient.executeRelease [("e1", escrowWithPolygonAction)]
        sampleReleaseParams sampleReleaseEnv).trigger.map
          (fun t => t.result.status)) = some .confirmed
    ∧ ((EscrowClient.executeRelease [("e1", escrowWithPolygonAction)]
        sampleReleaseParams sampleReleaseEnv).trigger.map
          (fun t => t.result.error)) = some none :=
  ⟨rfl, rfl, rfl, rfl, rfl⟩

/-- C4 amended: with an attached action and a passing proof check,
executeRelease always succeeds and stores status released, whatever the
bridge does.  When the bridge cannot route the environment (getRpcUrl
throws), the transient trigger fails with the error detail, but the release
is not rolled back, and the returned ReleaseResult drops the detail: it is
a success record whose ethTxId is the failed dispatch's empty txHash.  For
any environment getRpcUrl resolves (the four known chains, configured or
not), the simulated dispatch confirms. -/
theorem release_action_no_rollback :
    ∀ (st : EscrowState) (params : ReleaseParams) (env : ReleaseEnv)
      (e : Escrow) (action : CrossChainAction),
    EscrowClient.getEscrow st params.escrowId = some e →
    e.status = .active →
    e.params.crossChainAction = some action →
    EscrowClient.verifyProof params.proof params.publicInputs = true →
    ((EscrowClient.executeRelease st params env).result).isOk = true
    ∧ EscrowClient.getEscrow
        (EscrowClient.executeRelease st params env).state params.escrowId =
        some { e with status := .released }
    ∧ (EscrowClient.executeRelease st params env).trigger =
        some (triggerCrossChainAction action none none env.bridge)
    ∧ (∀ msg,
        BridgeClient.getRpcUrl (mkBridgeClient {}).config action.chain =
          .error msg →
        (triggerCrossChainAction action none none env.bridge).result.status =
          .failed
        ∧ (triggerCrossChainAction action none none env.bridge).result.error =
          some msg
        ∧ (EscrowClient.executeRelease st params env).result =
          .ok ⟨"btc_tx_" ++ natHex env.spendNow, some "", "success", none⟩)
    ∧ (∀ rpcUrl,
        BridgeClient.getRpcUrl (mkBridgeClient {}).config action.chain =
          .ok rpcUrl →
        (triggerCrossChainAction action none none env.bridge).result.status =
          .confirmed) := by
  intro st params env e action hE hact hA hvp
  have htca : triggerCrossChainAction action none none env.bridge =
      BridgeClient.triggerAction (mkBridgeClient {}) action "unknown" ""
        env.bridge := rfl
  rcases executeRelease_cases st params env with
    ⟨hE', _, _, _⟩ | ⟨e', hE', hact', _, _, _⟩ |
    ⟨e', hE', _, hvp', _, _, _⟩ | ⟨e', hE', _, _, hstate, hrest⟩
  · rw [hE] at hE'
    exact absurd hE' (by simp)
  · rw [hE] at hE'
    have he : e = e' := by injection hE'
    rw [← he] at hact'
    exact absurd hact hact'
  · rw [hvp] at hvp'
    exact absurd hvp' (by simp)
  · rw [hE] at hE'
    have he : e = e' := by injection hE'
    subst he
    rcases hrest with ⟨action', hA', htrig, hres⟩ | ⟨hAnone, _, _⟩
    · rw [hA] at hA'
      have ha : action = action' := by injection hA'
      subst ha
      refine ⟨by rw [hres]; rfl,
        by rw [hstate]; exact registryLookup_insert_same _ _ _, htrig, ?_, ?_⟩
      · intro msg hmsg
        rcases (triggerAction_cases (mkBridgeClient {}) action "unknown" ""
          env.bridge).2.2 with ⟨rpcUrl, hrpc, _, _⟩ | ⟨msg0, hrpc, hresT, _⟩
        · rw [hmsg] at hrpc
          exact absurd hrpc (by simp)
        · rw [hmsg] at hrpc
          have hm : msg = msg0 := by injection hrpc
          subst hm
          refine ⟨by rw [htca, hresT], by rw [htca, hresT], ?_⟩
          rw [hres, htca, hresT]
      · intro rpcUrl hrpc0
        rcases (triggerAction_cases (mkBridgeClient {}) action "unknown" ""
          env.bridge).2.2 with ⟨rpcUrl2, hrpc, hresT, _⟩ |
          ⟨msg0, hrpc, hresT, _⟩
        · rw [htca, hresT]
          rfl
        · rw [hrpc0] at hrpc
          exact absurd hrpc (by simp)
    · rw [hA] at hAnone
      exact absurd hAnone (by simp)

def solanaAction : CrossChainAction :=
  { chain := "solana", contract := "0xc", method := "m", params := [] }

def solanaParams : EscrowParams :=
  { sampleParams with crossChainAction := some solanaAction }

def escrowWithSolanaAction : Escrow :=
  { sampleEscrow with params := solanaParams }

/-- Witness for the amended C4 on an escrow whose action targets an
unrecognized environment: release succeeds and is stored as released, the
transient trigger fails, and the error detail is dropped from the returned
result. -/
theorem release_action_no_rollback_witness :
    ((EscrowClient.executeRelease [("e1", escrowWithSolanaAction)]
        sampleReleaseParams sampleReleaseEnv).result).isOk = true
    ∧ EscrowClient.getEscrow
        (EscrowClient.executeRelease [("e1", escrowWithSolanaAction)]
          sampleReleaseParams sampleReleaseEnv).state "e1" =
        some { escrowWithSolanaAction with status := .released }
    ∧ (triggerCrossChainAction solanaAction none none
        sampleBridgeEnv).result.status = .failed
    ∧ (triggerCrossChainAction solanaAction none none
        sampleBridgeEnv).result.error = some "Unsupported chain: solana"
    ∧ (EscrowClient.executeRelease [("e1", escrowWithSolanaAction)]
        sampleReleaseParams sampleReleaseEnv).result =
        .ok ⟨"btc_tx_" ++ natHex 7, some "", "success", none⟩ :=
  have h := release_action_no_rollback [("e1", escrowWithSolanaAction)]
    sampleReleaseParams sampleReleaseEnv escrowWithSolanaAction solanaAction
    rfl rfl rfl rfl
  have hfail := h.2.2.2.1 "Unsupported chain: solana" rfl
  ⟨h.1, h.2.1, hfail.1, hfail.2.1, hfail.2.2⟩

/-- C8 counterexample: a dispatch that fails (unrecognized target
environment) leaves its pending-action record registered, so getActionStatus
on the returned action reference is not none after triggerAction returns. -/
theorem pending_record_kept_on_failure_cex :
    (BridgeClient.triggerAction (mkBridgeClient {}) solanaAction "esc" "p"
      sampleBridgeEnv).result.status = .failed
    ∧ BridgeClient.getActionStatus
        (BridgeClient.triggerAction (mkBridgeClient {}) solanaAction "esc"
          "p" sampleBridgeEnv).client
        (BridgeClient.triggerAction (mkBridgeClient {}) solanaAction "esc"
          "p" sampleBridgeEnv).actionId =
        some { txHash := "pending_esc_9", blockNumber := none,
               status := .pending, tokenId := none, error := none } :=
  ⟨rfl, rfl⟩

/-- The synthetic pending result getActionStatus reports for a registered
action reference. -/
def pendingResultFor (actionId : String) : CrossChainResult :=
  { txHash := "pending_" ++ actionId, blockNumber := none,
    status := .pending, tokenId := none, error := none }

/-- C8 amended: triggerAction registers the pending record under
escrowId_timestamp before dispatch and removes it only on successful
dispatch, after which getActionStatus returns none; on a dispatch failure
the record stays registered and getActionStatus keeps reporting a pending
result. -/
theorem triggerAction_registry :
    ∀ (bc : BridgeState) (action : CrossChainAction)
      (escrowId proof : String) (env : BridgeEnv),
    (BridgeClient.triggerAction bc action escrowId proof env).actionId =
      escrowId ++ "_" ++ toString env.now
    ∧ ((BridgeClient.getRpcUrl bc.config action.chain).isOk = true →
      BridgeClient.getActionStatus
        (BridgeClient.triggerAction bc action escrowId proof env).client
        (BridgeClient.triggerAction bc action escrowId proof env).actionId =
        none)
    ∧ (∀ msg, BridgeClient.getRpcUrl bc.config action.chain = .error msg →
      (BridgeClient.triggerAction bc action escrowId proof env).result.status
        = .failed
      ∧ BridgeClient.getActionStatus
          (BridgeClient.triggerAction bc action escrowId proof env).client
          (BridgeClient.triggerAction bc action escrowId proof env).actionId =
          some (pendingResultFor
            (BridgeClient.triggerAction bc action escrowId proof
              env).actionId)) := by
  intro bc action escrowId proof env
  obtain ⟨hid, hmsg, hcase⟩ := triggerAction_cases bc action escrowId proof env
  refine ⟨hid, ?_, ?_⟩
  · intro hok
    rcases hcase with ⟨rpcUrl, hrpc, _, hpend⟩ | ⟨msg, hrpc, _, hpend⟩
    · unfold BridgeClient.getActionStatus
      rw [hid, hpend, registryLookup_erase_same]
    · rw [hrpc] at hok
      exact absurd hok (by simp [Except.isOk, Except.toBool])
  · intro msg hmsg0
    rcases hcase with ⟨rpcUrl, hrpc, _, _⟩ | ⟨msg1, hrpc, hres, hpend⟩
    · rw [hmsg0] at hrpc
      exact absurd hrpc (by simp)
    · rw [hmsg0] at hrpc
      have hm : msg = msg1 := by injection hrpc
      subst hm
      refine ⟨by rw [hres], ?_⟩
      unfold BridgeClient.getActionStatus
      rw [hid, hpend, registryLookup_insert_same]
      rfl

/-- Witness for the amended C8: a successful ethereum dispatch leaves no
pending record, and a failed dispatch to an unrecognized environment keeps
one. -/
theorem triggerAction_registry_witness :
    ((BridgeClient.getRpcUrl (mkBridgeClient {}).config "ethereum").isOk
      = true)
    ∧ BridgeClient.getActionStatus
        (BridgeClient.triggerAction (mkBridgeClient {})
          { chain := "ethereum", contract := "c", method := "m",
            params := [] } "esc" "p" sampleBridgeEnv).client
        (BridgeClient.triggerAction (mkBridgeClient {})
          { chain := "ethereum", contract := "c", method := "m",
            params := [] } "esc" "p" sampleBridgeEnv).actionId = none
    ∧ (BridgeClient.triggerAction (mkBridgeClient {}) solanaAction "esc2"
        "p" sampleBridgeEnv).result.status = .failed
    ∧ BridgeClient.getActionStatus
        (BridgeClient.triggerAction (mkBridgeClient {}) solanaAction "esc2"
          "p" sampleBridgeEnv).client
        (BridgeClient.triggerAction (mkBridgeClient {}) solanaAction "esc2"
          "p" sampleBridgeEnv).actionId =
        some (pendingResultFor
          (BridgeClient.triggerAction (mkBridgeClient {}) solanaAction
            "esc2" "p" sampleBridgeEnv).actionId) :=
  ⟨rfl,
   (triggerAction_registry (mkBridgeClient {})
     { chain := "ethereum", contract := "c", method := "m", params := [] }
     "esc" "p" sampleBridgeEnv).2.1 rfl,
   (triggerAction_registry (mkBridgeClient {}) solanaAction "esc2" "p"
     sampleBridgeEnv).2.2 "Unsupported chain: solana" rfl |>.1,
   (triggerAction_registry (mkBridgeClient {}) solanaAction "esc2" "p"
     sampleBridgeEnv).2.2 "Unsupported chain: solana" rfl |>.2⟩

/-- C9: whenever executeRelease dispatches a cross-chain action, the bridge
receives the literal escrow id "unknown" and an empty proof, so the event
message and the registry key never reference the released escrow. -/
theorem release_bridge_unknown_id :
    ∀ (st : EscrowState) (params : ReleaseParams) (env : ReleaseEnv)
      (e : Escrow) (action : CrossChainAction),
    EscrowClient.getEscrow st params.escrowId = some e →
    e.status = .active →
    e.params.crossChainAction = some action →
    EscrowClient.verifyProof params.proof params.publicInputs = true →
    ∃ t, (EscrowClient.executeRelease st params env).trigger = some t ∧
      t.message.escrowId = "unknown" ∧ t.message.proof = "" ∧
      t.actionId = "unknown" ++ "_" ++ toString env.bridge.now := by
  intro st params env e action hE hact hA hvp
  have htca : triggerCrossChainAction action none none env.bridge =
      BridgeClient.triggerAction (mkBridgeClient {}) action "unknown" ""
        env.bridge := rfl
  rcases executeRelease_cases st params env with
    ⟨hE', _, _, _⟩ | ⟨e', hE', hact', _, _, _⟩ |
    ⟨e', hE', _, hvp', _, _, _⟩ | ⟨e', hE', _, _, _, hrest⟩
  · rw [hE] at hE'
    exact absurd hE' (by simp)
  · rw [hE] at hE'
    have he : e = e' := by injection hE'
    rw [← he] at hact'
    exact absurd hact hact'
  · rw [hvp] at hvp'
    exact absurd hvp' (by simp)
  · rw [hE] at hE'
    have he : e = e' := by injection hE'
    subst he
    rcases hrest with ⟨action', hA', htrig, _⟩ | ⟨hAnone, _, _⟩
    · rw [hA] at hA'
      have ha : action = action' := by injection hA'
      subst ha
      obtain ⟨hid, hmsg, _⟩ := triggerAction_cases (mkBridgeClient {}) action
        "unknown" "" env.bridge
      refine ⟨triggerCrossChainAction action none none env.bridge, htrig,
        ?_, ?_, ?_⟩
      · rw [htca, hmsg]
      · rw [htca, hmsg]
      · rw [htca, hid]
    · rw [hA] at hAnone
      exact absurd hAnone (by simp)

/-- Witness for C9 on a concrete release with an attached action: the
trigger's event message carries "unknown" and the empty proof, and the
registry key is unknown_9. -/
theorem release_bridge_unknown_id_witness :
    ∃ t, (EscrowClient.executeRelease [("e1", escrowWithPolygonAction)]
        sampleReleaseParams sampleReleaseEnv).trigger = some t ∧
      t.message.escrowId = "unknown" ∧ t.message.proof = "" ∧
      t.actionId = "unknown" ++ "_" ++ toString sampleBridgeEnv.now :=
  release_bridge_unknown_id [("e1", escrowWithPolygonAction)]
    sampleReleaseParams sampleReleaseEnv escrowWithPolygonAction
    polygonAction rfl rfl rfl rfl
